import Mathlib

/-!
Shallow embedding of the food-donation coordination backend (`src/server/index.js`).

The document store is modelled as explicit lists held in a `DB` record; Mongo
`findOne` is `List.find?` in insertion order, `findByIdAndUpdate` is a map that
rewrites the record(s) with the given id, and query `sort` is a stable sort by
the requested key.  Timestamps (`new Date()`) are passed in as a `now : Nat`
parameter.  Ids are `Nat`, external identities (`clerkUserId`) are `String`.
Each Express handler becomes a function from the request parameters and the
current `DB` to a response (`Except ErrResp _`, carrying the HTTP code and
message of the JS response) together with the post-state `DB`.
-/

/-- Status enum of `FoodListingSchema.status`. -/
inductive ListingStatus
| available
| reserved
| claimed
| expired
deriving DecidableEq

/-- Enum of `FoodListingSchema.foodType`. -/
inductive FoodType
| fresh
| cooked
| packaged
deriving DecidableEq

/-- Enum of `FoodListingSchema.priority`. -/
inductive ListingPriority
| low
| medium
| high
| urgent
deriving DecidableEq

/-- Enum of `FoodListingSchema.donorType`. -/
inductive DonorType
| individual
| ngo
| socialWorker
| restaurant
| store
deriving DecidableEq

/-- Enum of `FoodClaimSchema.claimerType` (also the role tag produced by `getUserByClerkId`). -/
inductive ClaimerType
| individual
| ngo
| socialWorker
deriving DecidableEq

/-- Enum of `FoodClaimSchema.claimType`. -/
inductive ClaimKind
| reserved
| claimed
deriving DecidableEq

/-- Enum of `FoodClaimSchema.status`. -/
inductive ClaimStatus
| pending
| confirmed
| pickedUp
| cancelled
deriving DecidableEq

/-- Enum of `ChatMessageSchema.senderType`. -/
inductive SenderType
| donor
| recipient
deriving DecidableEq

/-- Enum of `ChatMessageSchema.messageType`. -/
inductive MessageType
| text
| image
| location
deriving DecidableEq

/-- Enum of `NotificationSchema.type`. -/
inductive NotificationType
| newFood
| foodClaimed
| foodExpired
| message
| system
deriving DecidableEq

/-- Enum of `NotificationSchema.priority`. -/
inductive NotificationPriority
| low
| medium
| high
deriving DecidableEq

/-- Enum of `FoodListingSchema.contactInfo.preferredContact`. -/
inductive PreferredContact
| phone
| email
| chat
deriving DecidableEq

/-- String form of a listing status, as interpolated into notification texts. -/
def listingStatusToString : ListingStatus → String
| .available => "available"
| .reserved => "reserved"
| .claimed => "claimed"
| .expired => "expired"

/-- String form of a listing priority (used for sorting by the `priority` field). -/
def priorityToString : ListingPriority → String
| .low => "low"
| .medium => "medium"
| .high => "high"
| .urgent => "urgent"

/-- Embedded `FoodListingSchema.coordinates`. -/
structure Coordinates where
  latitude : ℚ
  longitude : ℚ
deriving DecidableEq

/-- Embedded `FoodListingSchema.dietaryInfo`. -/
structure DietaryInfo where
  vegetarian : Bool
  vegan : Bool
  glutenFree : Bool
  nutFree : Bool
deriving DecidableEq

/-- Embedded `FoodListingSchema.contactInfo`. -/
structure ContactInfo where
  phone : Option String
  email : Option String
  preferredContact : PreferredContact
deriving DecidableEq

/-- Embedded `FoodListingSchema` document (Mongo `_id` modelled as `id : Nat`). -/
structure FoodListing where
  id : Nat
  title : String
  description : String
  location : String
  coordinates : Option Coordinates
  donor : String
  donorId : String
  donorType : DonorType
  quantity : String
  expiryTime : String
  exactExpiryDate : Option Nat
  foodType : FoodType
  dietaryInfo : DietaryInfo
  status : ListingStatus
  images : List String
  contactInfo : ContactInfo
  pickupInstructions : Option String
  servings : Option Nat
  tags : List String
  priority : ListingPriority
  isActive : Bool
  createdAt : Nat
  updatedAt : Nat
deriving DecidableEq

/-- Embedded `FoodClaimSchema` document. -/
structure FoodClaim where
  id : Nat
  foodListingId : Nat
  claimedBy : String
  claimerName : String
  claimerType : ClaimerType
  claimType : ClaimKind
  estimatedPickupTime : Option Nat
  actualPickupTime : Option Nat
  notes : Option String
  status : ClaimStatus
  createdAt : Nat
  updatedAt : Nat
deriving DecidableEq

/-- Embedded `ChatMessageSchema` document. -/
structure ChatMessage where
  foodListingId : Nat
  senderId : String
  senderName : String
  senderType : SenderType
  message : String
  messageType : MessageType
  isRead : Bool
  createdAt : Nat
deriving DecidableEq

/-- Embedded `NotificationSchema` document. -/
structure Notification where
  userId : String
  title : String
  message : String
  type : NotificationType
  relatedId : Option Nat
  isRead : Bool
  priority : NotificationPriority
  createdAt : Nat
deriving DecidableEq

/-- Embedded `IndividualSchema` profile (required fields as `String`/`Nat`, optional as `Option`). -/
structure Individual where
  clerkUserId : String
  fullName : String
  phoneNumber : Option String
  age : Nat
  occupation : String
  location : String
  skills : String
  interests : String
  availability : String
  previousVolunteering : Option String
  preferredCauses : String
  personalMotivation : String
  education : Option String
  languages : Option String
  goals : Option String
  description : Option String
deriving DecidableEq

/-- Embedded `NGOSchema` profile. -/
structure NGO where
  clerkUserId : String
  organizationName : String
  registrationNumber : String
  phoneNumber : Option String
  foundedYear : Nat
  focusAreas : String
  location : String
  teamSize : Nat
  contactPerson : String
  website : Option String
  currentProjects : String
  collaborationGoals : String
  missionStatement : Option String
  achievements : Option String
  fundingNeeds : Option String
  description : Option String
deriving DecidableEq

/-- Embedded `SocialWorkerSchema` profile. -/
structure SocialWorker where
  clerkUserId : String
  fullName : String
  phoneNumber : Option String
  experience : Nat
  education : String
  specialization : String
  currentEmployer : Option String
  licenseCertification : String
  workingAreas : String
  languages : String
  availability : String
  motivation : String
  certifications : Option String
  caseExperience : Option String
  professionalGoals : Option String
  description : Option String
deriving DecidableEq

/-- Result of `getUserByClerkId`: the matched profile spread together with its role tag.
Only the fields the handlers read are kept (`fullName`, `organizationName`,
`contactPerson`, `userType`). -/
structure ResolvedUser where
  clerkUserId : String
  userType : ClaimerType
  fullName : Option String
  organizationName : Option String
  contactPerson : Option String
deriving DecidableEq

/-- Whole persisted store plus the fresh-id source for new claim documents. -/
structure DB where
  individuals : List Individual
  ngos : List NGO
  socialWorkers : List SocialWorker
  listings : List FoodListing
  claims : List FoodClaim
  messages : List ChatMessage
  notifications : List Notification
  nextClaimId : Nat
deriving DecidableEq

/-- Error payload of a failing route: HTTP status code and response message. -/
structure ErrResp where
  code : Nat
  msg : String
deriving DecidableEq

/-- Helper `getUserByClerkId`: search `Individual`, then `NGO`, then `SocialWorker`
in that order, tagging the first hit with its role (`index.js` lines 213-228). -/
def getUserByClerkId (db : DB) (cid : String) : Option ResolvedUser :=
  match db.individuals.find? (fun u => decide (u.clerkUserId = cid)) with
  | some u => some { clerkUserId := u.clerkUserId, userType := .individual,
                     fullName := some u.fullName, organizationName := none, contactPerson := none }
  | none =>
    match db.ngos.find? (fun u => decide (u.clerkUserId = cid)) with
    | some u => some { clerkUserId := u.clerkUserId, userType := .ngo,
                       fullName := none, organizationName := some u.organizationName,
                       contactPerson := some u.contactPerson }
    | none =>
      match db.socialWorkers.find? (fun u => decide (u.clerkUserId = cid)) with
      | some u => some { clerkUserId := u.clerkUserId, userType := .socialWorker,
                         fullName := some u.fullName, organizationName := none, contactPerson := none }
      | none => none

/-- JS `user.fullName || user.organizationName` (claimer name in reserve/claim). -/
def claimerNameOf (u : ResolvedUser) : String :=
  (u.fullName <|> u.organizationName).getD ""

/-- JS `user.fullName || user.organizationName || user.contactPerson` (sender name in chat). -/
def senderNameOf (u : ResolvedUser) : String :=
  (u.fullName <|> u.organizationName <|> u.contactPerson).getD ""

/-- Mongo `FoodListing.findById`. -/
def findListingById (db : DB) (i : Nat) : Option FoodListing :=
  db.listings.find? (fun l => decide (l.id = i))

/-- Helper `createNotification`: persist the notification (priority defaults to
`medium`, `isRead` to `false`) and emit it to the target user room (`index.js`
lines 230-245; the socket emit has no effect on the store). -/
def createNotification (db : DB) (now : Nat) (userId title message : String)
    (type : NotificationType) (relatedId : Option Nat) : DB :=
  { db with notifications := db.notifications ++
      [{ userId := userId, title := title, message := message, type := type,
         relatedId := relatedId, isRead := false, priority := .medium, createdAt := now }] }

/-- Record rewrite `{ status: newStatus, updatedAt: new Date() }` of `updateFoodStatus`. -/
def setListingStatus (now : Nat) (newStatus : ListingStatus) (x : FoodListing) : FoodListing :=
  { x with status := newStatus, updatedAt := now }

/-- Helper `updateFoodStatus`: `findByIdAndUpdate` the listing status (stamping
`updatedAt`), then, when a caller id is given that differs from the donor,
notify the donor of the status change (`index.js` lines 247-272).  Returns the
updated listing as the JS function does. -/
def updateFoodStatus (db : DB) (now : Nat) (foodId : Nat) (newStatus : ListingStatus)
    (clerkUserId : Option String) : DB × Option FoodListing :=
  match findListingById db foodId with
  | none => (db, none)
  | some l =>
    let l' := setListingStatus now newStatus l
    let listings' := db.listings.map fun x => if x.id = foodId then setListingStatus now newStatus x else x
    let db' := { db with listings := listings' }
    match clerkUserId with
    | some cid =>
      if cid ≠ l.donorId then
        (createNotification db' now l.donorId "Food Status Updated"
          ("Your food listing " ++ l.title ++ " is now " ++ listingStatusToString newStatus)
          .foodClaimed (some foodId), some l')
      else (db', some l')
    | none => (db', some l')

/-- Route `POST /api/food/reserve/:id` (`index.js` lines 588-618): 404 when the
listing is missing, 400 when its status is not `available`, 404 when the actor
does not resolve; otherwise create a `reserved`/`pending` claim and move the
listing to `reserved`. -/
def reserveFood (db : DB) (now : Nat) (listingId : Nat) (clerkUserId : String)
    (estimatedPickupTime : Option Nat) (notes : Option String) :
    Except ErrResp FoodClaim × DB :=
  match findListingById db listingId with
  | none => (.error ⟨404, "Food listing not found"⟩, db)
  | some listing =>
    if listing.status ≠ .available then
      (.error ⟨400, "Food is no longer available"⟩, db)
    else
      match getUserByClerkId db clerkUserId with
      | none => (.error ⟨404, "User not found"⟩, db)
      | some user =>
        let claim : FoodClaim :=
          { id := db.nextClaimId, foodListingId := listingId, claimedBy := clerkUserId,
            claimerName := claimerNameOf user, claimerType := user.userType,
            claimType := .reserved, estimatedPickupTime := estimatedPickupTime,
            actualPickupTime := none, notes := notes, status := .pending,
            createdAt := now, updatedAt := now }
        let db1 : DB := { db with claims := db.claims ++ [claim], nextClaimId := db.nextClaimId + 1 }
        ((.ok claim), (updateFoodStatus db1 now listingId .reserved (some clerkUserId)).1)

/-- In-place upgrade performed by the claim route when a claim record for the
(listing, actor) pair already exists: `claim.claimType = claimed;
claim.actualPickupTime = new Date(); claim.status = picked-up; claim.notes = notes`. -/
def upgradeClaim (now : Nat) (notes : Option String) (c : FoodClaim) : FoodClaim :=
  { c with claimType := .claimed, actualPickupTime := some now, status := .pickedUp, notes := notes }

/-- Route `POST /api/food/claim/:id` (`index.js` lines 620-660): 404 when the
listing is missing, 400 when its status is already `claimed`, 404 when the actor
does not resolve.  Then `findOne` an existing claim for the (listing, actor)
pair — note: with no status condition — and either upgrade it in place
(kind `claimed`, status `picked-up`, pickup time stamped, notes overwritten) or
create a fresh one already picked up; finally move the listing to `claimed`. -/
def claimFood (db : DB) (now : Nat) (listingId : Nat) (clerkUserId : String)
    (notes : Option String) : Except ErrResp FoodClaim × DB :=
  match findListingById db listingId with
  | none => (.error ⟨404, "Food listing not found"⟩, db)
  | some listing =>
    if listing.status = .claimed then
      (.error ⟨400, "Food has already been claimed"⟩, db)
    else
      match getUserByClerkId db clerkUserId with
      | none => (.error ⟨404, "User not found"⟩, db)
      | some user =>
        match db.claims.find? (fun c => decide (c.foodListingId = listingId ∧ c.claimedBy = clerkUserId)) with
        | some c =>
          let c' := upgradeClaim now notes c
          let claims1 := db.claims.map fun x => if x.id = c.id then upgradeClaim now notes x else x
          let db1 : DB := { db with claims := claims1 }
          ((.ok c'), (updateFoodStatus db1 now listingId .claimed (some clerkUserId)).1)
        | none =>
          let claim : FoodClaim :=
            { id := db.nextClaimId, foodListingId := listingId, claimedBy := clerkUserId,
              claimerName := claimerNameOf user, claimerType := user.userType,
              claimType := .claimed, estimatedPickupTime := none,
              actualPickupTime := some now, notes := notes, status := .pickedUp,
              createdAt := now, updatedAt := now }
          let db1 : DB := { db with claims := db.claims ++ [claim], nextClaimId := db.nextClaimId + 1 }
          ((.ok claim), (updateFoodStatus db1 now listingId .claimed (some clerkUserId)).1)

/-- Whether a claim record is live in the sense of the spec (status pending or confirmed). -/
def isLive (s : ClaimStatus) : Bool :=
  match s with
  | .pending => true
  | .confirmed => true
  | .pickedUp => false
  | .cancelled => false

/-- Route `DELETE /api/food/unclaim/:id` (`index.js` lines 662-677): `findOne` a
claim by this actor on this listing with status in {pending, confirmed}; 404
when none exists, otherwise cancel it and move the listing back to `available`. -/
def unclaimFood (db : DB) (now : Nat) (listingId : Nat) (clerkUserId : String) :
    Except ErrResp Unit × DB :=
  match db.claims.find? (fun c =>
      decide (c.foodListingId = listingId ∧ c.claimedBy = clerkUserId) && isLive c.status) with
  | none => (.error ⟨404, "No active claim found"⟩, db)
  | some c =>
    let claims1 := db.claims.map fun x => if x.id = c.id then { x with status := ClaimStatus.cancelled } else x
    let db1 : DB := { db with claims := claims1 }
    ((.ok ()), (updateFoodStatus db1 now listingId .available (some clerkUserId)).1)

/-- Update payload of `PUT /api/food/listings/:id`: the request body minus
`clerkUserId` (which the handler destructures away).  A `some` field is present
in the body and written verbatim by the `{...updateData}` spread; a `none` field
is absent and leaves the stored value untouched.  `updatedAt` is not part of the
payload: the handler always overwrites it with the current time. -/
structure ListingUpdate where
  title : Option String
  description : Option String
  location : Option String
  coordinates : Option Coordinates
  donor : Option String
  donorId : Option String
  donorType : Option DonorType
  quantity : Option String
  expiryTime : Option String
  exactExpiryDate : Option Nat
  foodType : Option FoodType
  dietaryInfo : Option DietaryInfo
  status : Option ListingStatus
  images : Option (List String)
  contactInfo : Option ContactInfo
  pickupInstructions : Option String
  servings : Option Nat
  tags : Option (List String)
  priority : Option ListingPriority
  isActive : Option Bool
  createdAt : Option Nat
deriving DecidableEq

/-- Merge of `findByIdAndUpdate(id, { ...updateData, updatedAt: new Date() })`:
present payload fields win, absent ones keep the stored value, `updatedAt` is
always stamped, and the document id is immutable. -/
def applyListingUpdate (u : ListingUpdate) (now : Nat) (l : FoodListing) : FoodListing where
  id := l.id
  title := u.title.getD l.title
  description := u.description.getD l.description
  location := u.location.getD l.location
  coordinates := (u.coordinates.map some).getD l.coordinates
  donor := u.donor.getD l.donor
  donorId := u.donorId.getD l.donorId
  donorType := u.donorType.getD l.donorType
  quantity := u.quantity.getD l.quantity
  expiryTime := u.expiryTime.getD l.expiryTime
  exactExpiryDate := (u.exactExpiryDate.map some).getD l.exactExpiryDate
  foodType := u.foodType.getD l.foodType
  dietaryInfo := u.dietaryInfo.getD l.dietaryInfo
  status := u.status.getD l.status
  images := u.images.getD l.images
  contactInfo := u.contactInfo.getD l.contactInfo
  pickupInstructions := (u.pickupInstructions.map some).getD l.pickupInstructions
  servings := (u.servings.map some).getD l.servings
  tags := u.tags.getD l.tags
  priority := u.priority.getD l.priority
  isActive := u.isActive.getD l.isActive
  createdAt := u.createdAt.getD l.createdAt
  updatedAt := now

/-- Route `PUT /api/food/listings/:id` (`index.js` lines 550-567): 404 when the
listing is missing, 403 when the requester is not the owning donor, otherwise
`findByIdAndUpdate` with the spread payload plus a fresh `updatedAt`. -/
def updateFoodListing (db : DB) (now : Nat) (listingId : Nat) (clerkUserId : String)
    (u : ListingUpdate) : Except ErrResp FoodListing × DB :=
  match findListingById db listingId with
  | none => (.error ⟨404, "Food listing not found"⟩, db)
  | some listing =>
    if listing.donorId ≠ clerkUserId then
      (.error ⟨403, "Not authorized to update this listing"⟩, db)
    else
      let listings' := db.listings.map fun x => if x.id = listingId then applyListingUpdate u now x else x
      ((.ok (applyListingUpdate u now listing)), { db with listings := listings' })

/-- Soft-delete rewrite `findByIdAndUpdate(id, { isActive: false })` (note: the
delete route does not touch `updatedAt`). -/
def deactivateListing (x : FoodListing) : FoodListing :=
  { x with isActive := false }

/-- Route `DELETE /api/food/listings/:id` (`index.js` lines 569-586): 404 when
the listing is missing, 403 when the requester is not the owning donor,
otherwise set `isActive` to `false` (soft delete). -/
def deleteFoodListing (db : DB) (listingId : Nat) (clerkUserId : String) :
    Except ErrResp Unit × DB :=
  match findListingById db listingId with
  | none => (.error ⟨404, "Food listing not found"⟩, db)
  | some listing =>
    if listing.donorId ≠ clerkUserId then
      (.error ⟨403, "Not authorized to delete this listing"⟩, db)
    else
      let listings' := db.listings.map fun x => if x.id = listingId then deactivateListing x else x
      ((.ok ()), { db with listings := listings' })

/-- Case-insensitive substring test, modelling the `$regex ... $options: 'i'`
filters of the discovery query. -/
def strContainsCI (h n : String) : Bool :=
  (h.toLower.toList.tails).any fun t => n.toLower.toList.isPrefixOf t

/-- Sortable field of the discovery query's `sortBy` parameter. -/
inductive SortField
| createdAt
| updatedAt
| title
| donor
| priority
| status
deriving DecidableEq

/-- Key comparison for one sort field (enum-valued fields compare by their
stored string form, as the document store does). -/
def fieldLE (f : SortField) (a b : FoodListing) : Bool :=
  match f with
  | .createdAt => decide (a.createdAt ≤ b.createdAt)
  | .updatedAt => decide (a.updatedAt ≤ b.updatedAt)
  | .title => decide (a.title ≤ b.title)
  | .donor => decide (a.donor ≤ b.donor)
  | .priority => decide (priorityToString a.priority ≤ priorityToString b.priority)
  | .status => decide (listingStatusToString a.status ≤ listingStatusToString b.status)

/-- Stable sort of listings by the requested field and direction
(`sortOrder === 'desc' ? -1 : 1`). -/
def sortListings (f : SortField) (desc : Bool) (l : List FoodListing) : List FoodListing :=
  l.insertionSort fun a b => (if desc then fieldLE f b a else fieldLE f a b) = true

/-- Query parameters of `GET /api/food/listings`. -/
structure ListingQuery where
  status : Option ListingStatus
  foodType : Option FoodType
  location : Option String
  priority : Option ListingPriority
  search : Option String
  vegetarian : Bool
  vegan : Bool
  limit : Nat
  page : Nat
  sortBy : SortField
  sortDesc : Bool
deriving DecidableEq

/-- Mongo filter object built by the discovery route (`index.js` lines 485-500):
`isActive: true` always, plus the optional status/foodType/location/priority/
dietary conditions and the `$or` free-text search over title, description,
donor and tags. -/
def matchesQuery (q : ListingQuery) (l : FoodListing) : Bool :=
  l.isActive &&
  (match q.status with | none => true | some s => decide (l.status = s)) &&
  (match q.foodType with | none => true | some f => decide (l.foodType = f)) &&
  (match q.location with | none => true | some s => strContainsCI l.location s) &&
  (match q.priority with | none => true | some p => decide (l.priority = p)) &&
  (if q.vegetarian then l.dietaryInfo.vegetarian else true) &&
  (if q.vegan then l.dietaryInfo.vegan else true) &&
  (match q.search with
   | none => true
   | some s => strContainsCI l.title s || strContainsCI l.description s ||
       strContainsCI l.donor s || l.tags.any fun t => strContainsCI t s)

/-- Route `GET /api/food/listings` (`index.js` lines 483-510): filter, sort by
the requested field, then skip `(page-1)*limit` records and return `limit`
records. -/
def getFoodListings (db : DB) (q : ListingQuery) : List FoodListing :=
  let filtered := db.listings.filter (matchesQuery q)
  let sorted := sortListings q.sortBy q.sortDesc filtered
  (sorted.drop ((q.page - 1) * q.limit)).take q.limit

/-- Route `GET /api/food/listings/:id` (`index.js` lines 512-523): plain
`findById`, no `isActive` condition; `none` models the 404 response. -/
def getFoodListingById (db : DB) (i : Nat) : Option FoodListing :=
  findListingById db i

/-- Notification body built by the chat route: sender name, colon, and the
message truncated to 50 characters with an ellipsis. -/
def chatNotificationBody (senderName msg : String) : String :=
  senderName ++ ": " ++ (if msg.length > 50 then msg.take 50 ++ "..." else msg)

/-- Route `POST /api/chat/:foodId` (`index.js` lines 747-782): 400 when the
actor id or message is empty (JS falsiness), 404 when the actor does not
resolve or the listing is missing.  The sender role is derived by comparing the
actor id with the listing's donor id.  The message is appended, then the
counterpart is notified: when the sender is the donor, the target is the
`claimedBy` of `FoodClaim.findOne({ foodListingId })` — the first claim record
on the listing, with no status condition — otherwise the donor; no notification
when the target is missing or equals the sender. -/
def sendChatMessage (db : DB) (now : Nat) (foodId : Nat) (clerkUserId message : String)
    (messageType : MessageType) : Except ErrResp ChatMessage × DB :=
  if clerkUserId = "" ∨ message = "" then
    (.error ⟨400, "User ID and message are required"⟩, db)
  else
    match getUserByClerkId db clerkUserId with
    | none => (.error ⟨404, "User not found"⟩, db)
    | some user =>
      match findListingById db foodId with
      | none => (.error ⟨404, "Food listing not found"⟩, db)
      | some foodListing =>
        let senderType : SenderType := if foodListing.donorId = clerkUserId then .donor else .recipient
        let senderName := senderNameOf user
        let cm : ChatMessage :=
          { foodListingId := foodId, senderId := clerkUserId, senderName := senderName,
            senderType := senderType, message := message, messageType := messageType,
            isRead := false, createdAt := now }
        let db1 : DB := { db with messages := db.messages ++ [cm] }
        let recipientId : Option String :=
          if senderType = .donor then
            (db1.claims.find? fun c => decide (c.foodListingId = foodId)).map (·.claimedBy)
          else some foodListing.donorId
        match recipientId with
        | some r =>
          if r ≠ clerkUserId then
            ((.ok cm), createNotification db1 now r "New Message"
              (chatNotificationBody senderName message) .message (some foodId))
          else ((.ok cm), db1)
        | none => ((.ok cm), db1)

/-- Per-message rewrite of the mark-read route: a message of this listing, not
sent by the requesting actor and still unread, flips to read. -/
def markMessageRead (foodId : Nat) (clerkUserId : String) (m : ChatMessage) : ChatMessage :=
  if m.foodListingId = foodId ∧ m.senderId ≠ clerkUserId ∧ m.isRead = false then
    { m with isRead := true }
  else m

/-- Route `PUT /api/chat/:foodId/read` (`index.js` lines 784-794):
`updateMany({ foodListingId, senderId: { $ne: clerkUserId }, isRead: false },
{ isRead: true })`; no existence or membership checks. -/
def markChatRead (db : DB) (foodId : Nat) (clerkUserId : String) : DB :=
  { db with messages := db.messages.map (markMessageRead foodId clerkUserId) }

/-- Route `POST /api/food/nearby` (`index.js` lines 711-730): 400 when latitude
or longitude is missing/zero (JS falsiness), otherwise convert the kilometer
radius to radians by dividing by 6371 and return the newest `lim` active,
available listings having stored coordinates inside the spherical cap.  The
`$centerSphere` geometry test is the database engine's; it is abstracted as the
`withinCap center point angularRadius` parameter. -/
def nearbyFood (withinCap : Coordinates → Coordinates → ℚ → Bool) (db : DB)
    (latitude longitude radiusKm : ℚ) (lim : Nat) : Except ErrResp (List FoodListing) :=
  if latitude = 0 ∨ longitude = 0 then
    .error ⟨400, "Latitude and longitude are required"⟩
  else
    let radiusRadians := radiusKm / 6371
    let center : Coordinates := { latitude := latitude, longitude := longitude }
    let hits := db.listings.filter fun l =>
      l.isActive && decide (l.status = .available) &&
      (match l.coordinates with
       | some c => withinCap center c radiusRadians
       | none => false)
    .ok ((sortListings .createdAt true hits).take lim)

/-- Number of live claim records (status pending or confirmed) on a listing id. -/
def liveCount (cs : List FoodClaim) (lid : Nat) : Nat :=
  cs.countP fun c => decide (c.foodListingId = lid) && isLive c.status

/-- Number of live claim records for one (listing, claimant) pair. -/
def livePairCount (cs : List FoodClaim) (lid : Nat) (uid : String) : Nat :=
  cs.countP fun c => decide (c.foodListingId = lid ∧ c.claimedBy = uid) && isLive c.status

/-- One request of the claim state machine: reserve, claim (pickup) or unclaim,
with its timestamp and parameters. -/
inductive ClaimOp
| reserve (now : Nat) (listingId : Nat) (clerkUserId : String)
    (estimatedPickupTime : Option Nat) (notes : Option String)
| claim (now : Nat) (listingId : Nat) (clerkUserId : String) (notes : Option String)
| unclaim (now : Nat) (listingId : Nat) (clerkUserId : String)

/-- State reached after one claim-machine request (response discarded). -/
def applyOp (db : DB) : ClaimOp → DB
| .reserve now lid uid ept notes => (reserveFood db now lid uid ept notes).2
| .claim now lid uid notes => (claimFood db now lid uid notes).2
| .unclaim now lid uid => (unclaimFood db now lid uid).2

/-- State reached after a sequence of claim-machine requests. -/
def applyOps (db : DB) (ops : List ClaimOp) : DB :=
  ops.foldl applyOp db

/-- Inductive invariant of the claim machine: every listing carries at most one
live claim overall, and a listing whose stored status is `available` carries
none. -/
structure StoreInv (db : DB) : Prop where
  liveLe : ∀ lid, liveCount db.claims lid ≤ 1
  availNoLive : ∀ l ∈ db.listings, l.status = ListingStatus.available → liveCount db.claims l.id = 0

/-- Fixture: an individual profile for the recipient actor. -/
def alice : Individual where
  clerkUserId := "userA"
  fullName := "Alice"
  phoneNumber := none
  age := 30
  occupation := "teacher"
  location := "City"
  skills := "cooking"
  interests := "volunteering"
  availability := "weekends"
  previousVolunteering := none
  preferredCauses := "hunger"
  personalMotivation := "help"
  education := none
  languages := none
  goals := none
  description := none

/-- Fixture: an individual profile for the donor actor. -/
def dan : Individual :=
  { alice with clerkUserId := "userD", fullName := "Dan" }

/-- Fixture: default dietary flags. -/
def baseDiet : DietaryInfo where
  vegetarian := false
  vegan := false
  glutenFree := false
  nutFree := false

/-- Fixture: default contact block. -/
def baseContact : ContactInfo where
  phone := none
  email := none
  preferredContact := .chat

/-- Fixture: an available active listing owned by the donor `userD`. -/
def listing1 : FoodListing where
  id := 1
  title := "Bread"
  description := "Fresh bread"
  location := "City"
  coordinates := none
  donor := "Dan"
  donorId := "userD"
  donorType := .individual
  quantity := "5 loaves"
  expiryTime := "24 hours"
  exactExpiryDate := none
  foodType := .fresh
  dietaryInfo := baseDiet
  status := .available
  images := []
  contactInfo := baseContact
  pickupInstructions := none
  servings := none
  tags := []
  priority := .medium
  isActive := true
  createdAt := 1
  updatedAt := 1

/-- Fixture: a cancelled (hence not live) claim record by `userA` on listing 1. -/
def cancelledClaimA : FoodClaim where
  id := 10
  foodListingId := 1
  claimedBy := "userA"
  claimerName := "Alice"
  claimerType := .individual
  claimType := .reserved
  estimatedPickupTime := none
  actualPickupTime := none
  notes := none
  status := .cancelled
  createdAt := 2
  updatedAt := 2

/-- Fixture: store holding listing 1 and only the cancelled claim of `userA`. -/
def dbCancelled : DB where
  individuals := [alice, dan]
  ngos := []
  socialWorkers := []
  listings := [listing1]
  claims := [cancelledClaimA]
  messages := []
  notifications := []
  nextClaimId := 11

/-- Fixture: store holding listing 1 and no claim records at all. -/
def dbEmptyClaims : DB :=
  { dbCancelled with claims := [], nextClaimId := 10 }

/-- Empty update payload: no field present in the request body. -/
def emptyUpdate : ListingUpdate where
  title := none
  description := none
  location := none
  coordinates := none
  donor := none
  donorId := none
  donorType := none
  quantity := none
  expiryTime := none
  exactExpiryDate := none
  foodType := none
  dietaryInfo := none
  status := none
  images := none
  contactInfo := none
  pickupInstructions := none
  servings := none
  tags := none
  priority := none
  isActive := none
  createdAt := none

/-- Update payload that only resets the listing status to `available`. -/
def availableUpdate : ListingUpdate :=
  { emptyUpdate with status := some .available }

/-- Scenario for the claim-ledger invariant: `userA` reserves listing 1. -/
def seqStep1 : DB := (reserveFood dbEmptyClaims 10 1 "userA" none none).2

/-- Scenario continued: the donor resets the listing status to `available`
through the update route while the reservation is still pending. -/
def seqStep2 : DB := (updateFoodListing seqStep1 20 1 "userD" availableUpdate).2

/-- Scenario continued: `userA` reserves listing 1 a second time. -/
def seqStep3 : DB := (reserveFood seqStep2 30 1 "userA" none none).2

/-- Fixture: listing with stored coordinates, for the geo query. -/
def listingGeo : FoodListing :=
  { listing1 with id := 2, coordinates := some { latitude := 0, longitude := 0 } }

/-- Fixture: store holding only the geo listing. -/
def dbGeo : DB :=
  { dbEmptyClaims with listings := [listingGeo] }

/-- Degenerate cap test accepting every point (stands in for the engine geometry
in concrete witnesses). -/
def capAll : Coordinates → Coordinates → ℚ → Bool := fun _ _ _ => true

/-- Fixture: an unread chat message on listing 1 sent by the donor. -/
def msgFromDan : ChatMessage where
  foodListingId := 1
  senderId := "userD"
  senderName := "Dan"
  senderType := .donor
  message := "ready for pickup"
  messageType := .text
  isRead := false
  createdAt := 3

/-- Fixture: store with one unread donor message on listing 1. -/
def dbChat : DB :=
  { dbEmptyClaims with messages := [msgFromDan] }

/-- Update payload that only sets the listing status to `claimed` (a transition
the state machine never performs through an update). -/
def claimedUpdate : ListingUpdate :=
  { emptyUpdate with status := some .claimed }

theorem find?_map_ite {α : Type} (getId : α → Nat) (i : Nat) (f : α → α)
    (hf : ∀ x, getId (f x) = getId x) :
    ∀ l : List α,
      (l.map fun x => if getId x = i then f x else x).find? (fun x => decide (getId x = i)) =
        (l.find? fun x => decide (getId x = i)).map f
| [] => rfl
| a :: t => by
    by_cases h : getId a = i
    · simp [List.find?_cons, h, hf]
    · have hd : (decide (getId a = i)) = false := by simp [h]
      simp only [List.map_cons, if_neg h, List.find?_cons, hd]
      exact find?_map_ite getId i f hf t

theorem map_getId_update {α : Type} (getId : α → Nat) (i : Nat) (f : α → α)
    (hf : ∀ x, getId (f x) = getId x) (l : List α) :
    (l.map fun x => if getId x = i then f x else x).map getId = l.map getId := by
  rw [List.map_map]
  refine List.map_congr_left fun x _ => ?_
  by_cases h : getId x = i <;> simp [h, hf]

theorem two_le_countP {α : Type} {p : α → Bool} :
    ∀ {l : List α} {x y : α}, x ∈ l → y ∈ l → x ≠ y → p x = true → p y = true →
      2 ≤ l.countP p := by
  intro l
  induction l with
  | nil => intro x y hx; cases hx
  | cons a t ih =>
    intro x y hx hy hxy hpx hpy
    rcases List.mem_cons.1 hx with rfl | hx'
    · rcases List.mem_cons.1 hy with rfl | hy'
      · exact absurd rfl hxy
      · have h1 : 0 < t.countP p := List.countP_pos_iff.2 ⟨y, hy', hpy⟩
        rw [List.countP_cons_of_pos _ _ hpx]
        omega
    · rcases List.mem_cons.1 hy with rfl | hy'
      · have h1 : 0 < t.countP p := List.countP_pos_iff.2 ⟨x, hx', hpx⟩
        rw [List.countP_cons_of_pos _ _ hpy]
        omega
      · have h2 := ih hx' hy' hxy hpx hpy
        rw [List.countP_cons]
        omega

theorem updateFoodStatus_claims (db : DB) (now fid : Nat) (st : ListingStatus)
    (uid : Option String) : ((updateFoodStatus db now fid st uid).1).claims = db.claims := by
  unfold updateFoodStatus
  cases findListingById db fid
  · rfl
  · cases uid
    · rfl
    · simp only
      split <;> rfl

theorem updateFoodStatus_nextClaimId (db : DB) (now fid : Nat) (st : ListingStatus)
    (uid : Option String) : ((updateFoodStatus db now fid st uid).1).nextClaimId = db.nextClaimId := by
  unfold updateFoodStatus
  cases findListingById db fid
  · rfl
  · cases uid
    · rfl
    · simp only
      split <;> rfl

theorem updateFoodStatus_listings (db : DB) (now fid : Nat) (st : ListingStatus)
    (uid : Option String) :
    ((updateFoodStatus db now fid st uid).1).listings =
      match findListingById db fid with
      | none => db.listings
      | some _ => db.listings.map fun x => if x.id = fid then setListingStatus now st x else x := by
  unfold updateFoodStatus
  cases findListingById db fid
  · rfl
  · cases uid
    · rfl
    · simp only
      split <;> rfl

theorem updateFoodStatus_messages (db : DB) (now fid : Nat) (st : ListingStatus)
    (uid : Option String) : ((updateFoodStatus db now fid st uid).1).messages = db.messages := by
  unfold updateFoodStatus
  cases findListingById db fid
  · rfl
  · cases uid
    · rfl
    · simp only
      split <;> rfl

theorem liveCount_append (a b : List FoodClaim) (lid : Nat) :
    liveCount (a ++ b) lid = liveCount a lid + liveCount b lid :=
  List.countP_append _ a b

theorem liveCount_single_eq_zero_of_ne (c : FoodClaim) (lid : Nat) (h : c.foodListingId ≠ lid) :
    liveCount [c] lid = 0 := by
  simp [liveCount, List.countP_cons, h]

theorem liveCount_single_eq_zero_of_not_live (c : FoodClaim) (lid : Nat)
    (h : isLive c.status = false) : liveCount [c] lid = 0 := by
  simp [liveCount, List.countP_cons, h]

theorem findListingById_setClaims (db : DB) (cs : List FoodClaim) (n i : Nat) :
    findListingById { db with claims := cs, nextClaimId := n } i = findListingById db i := rfl

theorem reserveFood_post (db : DB) (now lid : Nat) (uid : String) (ept : Option Nat)
    (notes : Option String) :
    ((reserveFood db now lid uid ept notes).2 = db) ∨
    (∃ listing nc, findListingById db lid = some listing ∧
      listing.status = ListingStatus.available ∧
      (reserveFood db now lid uid ept notes).2.claims = db.claims ++ [nc] ∧
      (reserveFood db now lid uid ept notes).2.listings =
        (db.listings.map fun x => if x.id = lid then setListingStatus now ListingStatus.reserved x else x) ∧
      nc.foodListingId = lid ∧ nc.status = ClaimStatus.pending) := by
  unfold reserveFood
  cases hL : findListingById db lid with
  | none => exact Or.inl rfl
  | some listing =>
    dsimp only
    by_cases hs : listing.status = ListingStatus.available
    · rw [if_neg (by simp [hs])]
      cases hU : getUserByClerkId db uid with
      | none => exact Or.inl rfl
      | some user =>
        dsimp only
        refine Or.inr ⟨listing, { id := db.nextClaimId, foodListingId := lid, claimedBy := uid, claimerName := claimerNameOf user, claimerType := user.userType, claimType := ClaimKind.reserved, estimatedPickupTime := ept, actualPickupTime := none, notes := notes, status := ClaimStatus.pending, createdAt := now, updatedAt := now }, rfl, hs, ?_, ?_, rfl, rfl⟩
        · rw [updateFoodStatus_claims]
        · rw [updateFoodStatus_listings, findListingById_setClaims, hL]
    · rw [if_pos (by simp [hs])]
      exact Or.inl rfl

theorem claimFood_post (db : DB) (now lid : Nat) (uid : String) (notes : Option String) :
    ((claimFood db now lid uid notes).2 = db) ∨
    (∃ cid, (claimFood db now lid uid notes).2.claims =
        (db.claims.map fun x => if x.id = cid then upgradeClaim now notes x else x) ∧
      (claimFood db now lid uid notes).2.listings =
        (db.listings.map fun x => if x.id = lid then setListingStatus now ListingStatus.claimed x else x)) ∨
    (∃ nc, (claimFood db now lid uid notes).2.claims = db.claims ++ [nc] ∧
      (claimFood db now lid uid notes).2.listings =
        (db.listings.map fun x => if x.id = lid then setListingStatus now ListingStatus.claimed x else x) ∧
      nc.foodListingId = lid ∧ isLive nc.status = false) := by
  unfold claimFood
  cases hL : findListingById db lid with
  | none => exact Or.inl rfl
  | some listing =>
    dsimp only
    by_cases hs : listing.status = ListingStatus.claimed
    · rw [if_pos hs]
      exact Or.inl rfl
    · rw [if_neg hs]
      cases hU : getUserByClerkId db uid with
      | none => exact Or.inl rfl
      | some user =>
        dsimp only
        cases hF : db.claims.find? (fun c => decide (c.foodListingId = lid ∧ c.claimedBy = uid)) with
        | some c =>
          dsimp only
          refine Or.inr (Or.inl ⟨c.id, ?_, ?_⟩)
          · rw [updateFoodStatus_claims]
          · rw [updateFoodStatus_listings, findListingById_setClaims, hL]
        | none =>
          dsimp only
          refine Or.inr (Or.inr ⟨{ id := db.nextClaimId, foodListingId := lid, claimedBy := uid, claimerName := claimerNameOf user, claimerType := user.userType, claimType := ClaimKind.claimed, estimatedPickupTime := none, actualPickupTime := some now, notes := notes, status := ClaimStatus.pickedUp, createdAt := now, updatedAt := now }, ?_, ?_, rfl, rfl⟩)
          · rw [updateFoodStatus_claims]
          · rw [updateFoodStatus_listings, findListingById_setClaims, hL]

theorem unclaimFood_post (db : DB) (now lid : Nat) (uid : String) :
    ((unclaimFood db now lid uid).2 = db) ∨
    (∃ c, db.claims.find? (fun k =>
        decide (k.foodListingId = lid ∧ k.claimedBy = uid) && isLive k.status) = some c ∧
      (unclaimFood db now lid uid).2.claims =
        (db.claims.map fun x => if x.id = c.id then { x with status := ClaimStatus.cancelled } else x) ∧
      ((unclaimFood db now lid uid).2.listings = db.listings ∨
       (unclaimFood db now lid uid).2.listings =
         (db.listings.map fun x => if x.id = lid then setListingStatus now ListingStatus.available x else x))) := by
  unfold unclaimFood
  cases hF : db.claims.find? (fun c =>
      decide (c.foodListingId = lid ∧ c.claimedBy = uid) && isLive c.status) with
  | none => exact Or.inl rfl
  | some c =>
    dsimp only
    refine Or.inr ⟨c, rfl, ?_, ?_⟩
    · rw [updateFoodStatus_claims]
    · rw [updateFoodStatus_listings, findListingById_setClaims]
      cases findListingById db lid
      · exact Or.inl rfl
      · exact Or.inr rfl

theorem liveCount_map_upgrade_le (cs : List FoodClaim) (cid now : Nat) (notes : Option String)
    (lid : Nat) :
    liveCount (cs.map fun x => if x.id = cid then upgradeClaim now notes x else x) lid ≤
      liveCount cs lid := by
  unfold liveCount
  rw [List.countP_map]
  refine List.countP_mono_left fun x _ hx => ?_
  by_cases h : x.id = cid
  · exfalso
    simp [Function.comp, h, upgradeClaim, isLive] at hx
  · simpa [Function.comp, h] using hx

theorem liveCount_map_cancel_le (cs : List FoodClaim) (cid : Nat) (lid : Nat) :
    liveCount (cs.map fun x => if x.id = cid then { x with status := ClaimStatus.cancelled } else x) lid ≤
      liveCount cs lid := by
  unfold liveCount
  rw [List.countP_map]
  refine List.countP_mono_left fun x _ hx => ?_
  by_cases h : x.id = cid
  · exfalso
    simp [Function.comp, h, isLive] at hx
  · simpa [Function.comp, h] using hx

theorem liveCount_cancel_eq_zero (db : DB) (h : StoreInv db) (lid : Nat) (uid : String)
    (c : FoodClaim)
    (hF : db.claims.find? (fun k =>
      decide (k.foodListingId = lid ∧ k.claimedBy = uid) && isLive k.status) = some c) :
    liveCount (db.claims.map fun x =>
      if x.id = c.id then { x with status := ClaimStatus.cancelled } else x) lid = 0 := by
  have hcm : c ∈ db.claims := List.mem_of_find?_eq_some hF
  have hcp := List.find?_some hF
  simp only [Bool.and_eq_true, decide_eq_true_eq] at hcp
  obtain ⟨⟨hclid, _⟩, hclive⟩ := hcp
  unfold liveCount
  rw [List.countP_map]
  rw [List.countP_eq_zero]
  intro x hx
  by_cases hxid : x.id = c.id
  · simp [Function.comp, hxid, isLive]
  · simp only [Function.comp, if_neg hxid, Bool.and_eq_true, decide_eq_true_eq, not_and]
    intro hxlid hxlive
    have hxc : x ≠ c := fun e => hxid (by rw [e])
    have hpx : (decide (x.foodListingId = lid) && isLive x.status) = true := by
      simp [hxlid, hxlive]
    have hpc : (decide (c.foodListingId = lid) && isLive c.status) = true := by
      simp [hclid, hclive]
    have h2 : 2 ≤ db.claims.countP fun k => decide (k.foodListingId = lid) && isLive k.status :=
      two_le_countP hx hcm hxc hpx hpc
    have h1 := h.liveLe lid
    unfold liveCount at h1
    omega

theorem storeInv_applyOp (db : DB) (h : StoreInv db) (op : ClaimOp) :
    StoreInv (applyOp db op) := by
  cases op with
  | reserve now lid uid ept notes =>
    dsimp only [applyOp]
    rcases reserveFood_post db now lid uid ept notes with heq | ⟨listing, nc, hL, hs, hc, hlst, hncl, hncs⟩
    · rw [heq]; exact h
    · have hmem := List.mem_of_find?_eq_some hL
      have hid : listing.id = lid := by simpa using List.find?_some hL
      have h0 : liveCount db.claims lid = 0 := hid ▸ h.availNoLive listing hmem hs
      constructor
      · intro lid'
        rw [hc, liveCount_append]
        by_cases hl' : lid' = lid
        · subst hl'
          rw [h0]
          simpa [liveCount] using List.countP_le_length _ (l := [nc])
        · rw [liveCount_single_eq_zero_of_ne nc lid' (by rw [hncl]; exact fun e => hl' e.symm)]
          simpa using h.liveLe lid'
      · intro l' hm hst
        rw [hlst] at hm
        obtain ⟨x, hx, rfl⟩ := List.mem_map.1 hm
        by_cases hxid : x.id = lid
        · rw [if_pos hxid] at hst
          simp [setListingStatus] at hst
        · rw [if_neg hxid] at hst ⊢
          rw [hc, liveCount_append, h.availNoLive x hx hst,
            liveCount_single_eq_zero_of_ne nc x.id (by rw [hncl]; exact fun e => hxid e.symm)]
  | claim now lid uid notes =>
    dsimp only [applyOp]
    rcases claimFood_post db now lid uid notes with heq | ⟨cid, hc, hlst⟩ | ⟨nc, hc, hlst, hncl, hncs⟩
    · rw [heq]; exact h
    · constructor
      · intro lid'
        rw [hc]
        exact le_trans (liveCount_map_upgrade_le db.claims cid now notes lid') (h.liveLe lid')
      · intro l' hm hst
        rw [hlst] at hm
        obtain ⟨x, hx, rfl⟩ := List.mem_map.1 hm
        by_cases hxid : x.id = lid
        · rw [if_pos hxid] at hst
          simp [setListingStatus] at hst
        · rw [if_neg hxid] at hst ⊢
          rw [hc]
          have := le_trans (liveCount_map_upgrade_le db.claims cid now notes x.id)
            (le_of_eq (h.availNoLive x hx hst))
          omega
    · constructor
      · intro lid'
        rw [hc, liveCount_append, liveCount_single_eq_zero_of_not_live nc lid' hncs]
        simpa using h.liveLe lid'
      · intro l' hm hst
        rw [hlst] at hm
        obtain ⟨x, hx, rfl⟩ := List.mem_map.1 hm
        by_cases hxid : x.id = lid
        · rw [if_pos hxid] at hst
          simp [setListingStatus] at hst
        · rw [if_neg hxid] at hst ⊢
          rw [hc, liveCount_append, h.availNoLive x hx hst,
            liveCount_single_eq_zero_of_not_live nc x.id hncs]
  | unclaim now lid uid =>
    dsimp only [applyOp]
    rcases unclaimFood_post db now lid uid with heq | ⟨c, hF, hc, hlst⟩
    · rw [heq]; exact h
    · have hzero := liveCount_cancel_eq_zero db h lid uid c hF
      constructor
      · intro lid'
        rw [hc]
        by_cases hl' : lid' = lid
        · subst hl'
          rw [hzero]
          omega
        · exact le_trans (liveCount_map_cancel_le db.claims c.id lid') (h.liveLe lid')
      · intro l' hm hst
        rcases hlst with hsame | hmap
        · rw [hsame] at hm
          rw [hc]
          exact Nat.le_zero.1 (le_trans (liveCount_map_cancel_le db.claims c.id l'.id)
            (le_of_eq (h.availNoLive l' hm hst)))
        · rw [hmap] at hm
          obtain ⟨x, hx, rfl⟩ := List.mem_map.1 hm
          by_cases hxid : x.id = lid
          · rw [if_pos hxid]
            rw [hc]
            have hsid : (setListingStatus now ListingStatus.available x).id = lid := hxid
            rw [hsid]
            exact hzero
          · rw [if_neg hxid] at hst ⊢
            rw [hc]
            exact Nat.le_zero.1 (le_trans (liveCount_map_cancel_le db.claims c.id x.id)
              (le_of_eq (h.availNoLive x hx hst)))

theorem storeInv_applyOps (ops : List ClaimOp) :
    ∀ db : DB, StoreInv db → StoreInv (applyOps db ops) := by
  induction ops with
  | nil => intro db h; exact h
  | cons op t ih => intro db h; exact ih _ (storeInv_applyOp db h op)

/-- C2 (amended): starting from a state with no claim records, over every
sequence of reserve, claim and unclaim requests, every (listing, claimant) pair
carries at most one live (pending or confirmed) claim record at any point.  The
listing-update route is excluded: it can rewrite the stored status to
`available` and thereby let a second live claim be created (see the
counterexample). -/
theorem C2_live_claim_invariant (db : DB) (h : db.claims = []) (ops : List ClaimOp)
    (lid : Nat) (uid : String) :
    livePairCount (applyOps db ops).claims lid uid ≤ 1 := by
  have h0 : StoreInv db := by
    constructor
    · intro lid'
      simp [h, liveCount]
    · intro l _ _
      simp [h, liveCount]
  have h1 := storeInv_applyOps ops db h0
  refine le_trans ?_ (h1.liveLe lid)
  unfold livePairCount liveCount
  refine List.countP_mono_left fun x _ hx => ?_
  simp only [Bool.and_eq_true, decide_eq_true_eq] at hx ⊢
  exact ⟨hx.1.1, hx.2⟩

/-- C2 counterexample: with the listing-update route in the sequence the claim
fails.  From a state with no claim records, `userA` reserves listing 1, the
donor resets the status to `available` through `PUT /api/food/listings/:id`,
and `userA` reserves again: two live (pending) claims for the pair
(listing 1, `userA`) now coexist. -/
theorem C2_counterexample :
    dbEmptyClaims.claims = [] ∧ livePairCount seqStep3.claims 1 "userA" = 2 := by
  constructor
  · rfl
  · decide

/-- Witness for C2: the invariant applied to a concrete one-step sequence. -/
theorem C2_witness :
    livePairCount (applyOps dbEmptyClaims [ClaimOp.reserve 10 1 "userA" none none]).claims 1 "userA" ≤ 1 :=
  C2_live_claim_invariant dbEmptyClaims rfl [ClaimOp.reserve 10 1 "userA" none none] 1 "userA"

/-- C1 (amended): on a claim request for an existing listing whose status is not
`claimed`, by a resolved actor, the route upserts on the (listing, actor) pair
with no status condition: if any claim record for the pair exists — live or
not — the first such record is upgraded in place (kind `claimed`, status
`picked-up`, pickup time stamped) and no record is added, so the multiset of
claim-record ids is unchanged; only when no record at all exists for the pair
is a brand-new record appended, already in picked-up state. -/
theorem C1_claim_upsert (db : DB) (now lid : Nat) (uid : String) (notes : Option String)
    (l : FoodListing) (u : ResolvedUser)
    (hL : findListingById db lid = some l) (hs : l.status ≠ ListingStatus.claimed)
    (hU : getUserByClerkId db uid = some u) :
    (∀ c, (db.claims.find? fun k => decide (k.foodListingId = lid ∧ k.claimedBy = uid)) = some c →
      (claimFood db now lid uid notes).2.claims =
        (db.claims.map fun x => if x.id = c.id then upgradeClaim now notes x else x) ∧
      (claimFood db now lid uid notes).1 = .ok (upgradeClaim now notes c) ∧
      (claimFood db now lid uid notes).2.claims.map FoodClaim.id = db.claims.map FoodClaim.id) ∧
    ((db.claims.find? fun k => decide (k.foodListingId = lid ∧ k.claimedBy = uid)) = none →
      ∃ nc, (claimFood db now lid uid notes).2.claims = db.claims ++ [nc] ∧
        nc.claimType = ClaimKind.claimed ∧ nc.status = ClaimStatus.pickedUp ∧
        nc.actualPickupTime = some now ∧ nc.foodListingId = lid ∧ nc.claimedBy = uid ∧
        (claimFood db now lid uid notes).1 = .ok nc) := by
  unfold claimFood
  rw [hL]
  dsimp only
  rw [if_neg hs, hU]
  dsimp only
  constructor
  · intro c hF
    rw [hF]
    dsimp only
    refine ⟨?_, rfl, ?_⟩
    · rw [updateFoodStatus_claims]
    · rw [updateFoodStatus_claims]
      exact map_getId_update FoodClaim.id c.id (upgradeClaim now notes) (fun x => rfl) db.claims
  · intro hF
    rw [hF]
    dsimp only
    refine ⟨{ id := db.nextClaimId, foodListingId := lid, claimedBy := uid, claimerName := claimerNameOf u, claimerType := u.userType, claimType := ClaimKind.claimed, estimatedPickupTime := none, actualPickupTime := some now, notes := notes, status := ClaimStatus.pickedUp, createdAt := now, updatedAt := now }, ?_, rfl, rfl, rfl, rfl, rfl, rfl⟩
    rw [updateFoodStatus_claims]

/-- C1 counterexample: in a store whose only claim record for (listing 1,
`userA`) is cancelled — so no live claim exists for the pair — the claim as
stated requires a brand-new record; the route instead upgrades the cancelled
record in place, leaving the id multiset `[10]` unchanged. -/
theorem C1_counterexample :
    ((dbCancelled.claims.all fun c => !(isLive c.status)) = true) ∧
    dbCancelled.claims.map FoodClaim.id = [10] ∧
    (claimFood dbCancelled 100 1 "userA" none).2.claims.map FoodClaim.id = [10] ∧
    (claimFood dbCancelled 100 1 "userA" none).1.isOk = true := by
  refine ⟨by decide, by decide, by decide, by decide⟩

/-- Witness for C1: the upsert theorem applied to the concrete store holding
only the cancelled pair record. -/
theorem C1_witness :
    (claimFood dbCancelled 100 1 "userA" none).2.claims =
      (dbCancelled.claims.map fun x =>
        if x.id = cancelledClaimA.id then upgradeClaim 100 none x else x) ∧
    (claimFood dbCancelled 100 1 "userA" none).1 = .ok (upgradeClaim 100 none cancelledClaimA) ∧
    (claimFood dbCancelled 100 1 "userA" none).2.claims.map FoodClaim.id =
      dbCancelled.claims.map FoodClaim.id :=
  (C1_claim_upsert dbCancelled 100 1 "userA" none listing1
    ⟨"userA", .individual, some "Alice", none, none⟩ rfl (by decide) rfl).1 cancelledClaimA rfl

/-- C3 (amended): on a successful chat send by a resolved actor on an existing
listing: when the sender id equals the donor id, the counterpart notification
goes to the `claimedBy` of the FIRST claim record on the listing — the lookup
`FoodClaim.findOne({ foodListingId })` has no status condition, so the target
may be the holder of a cancelled or picked-up claim; no notification is sent
only when the listing has no claim records at all or the found claimant is the
sender.  When the sender id differs from the donor id, the donor is notified. -/
theorem C3_chat_notification_target (db : DB) (now fid : Nat) (uid msg : String)
    (mt : MessageType) (u : ResolvedUser) (fl : FoodListing)
    (huid : uid ≠ "") (hmsg : msg ≠ "")
    (hU : getUserByClerkId db uid = some u) (hL : findListingById db fid = some fl) :
    (fl.donorId = uid →
      ((db.claims.find? fun k => decide (k.foodListingId = fid)) = none →
        (sendChatMessage db now fid uid msg mt).2.notifications = db.notifications) ∧
      (∀ c, (db.claims.find? fun k => decide (k.foodListingId = fid)) = some c →
        (c.claimedBy ≠ uid →
          (sendChatMessage db now fid uid msg mt).2.notifications.map Notification.userId =
            db.notifications.map Notification.userId ++ [c.claimedBy]) ∧
        (c.claimedBy = uid →
          (sendChatMessage db now fid uid msg mt).2.notifications = db.notifications))) ∧
    (fl.donorId ≠ uid →
      (sendChatMessage db now fid uid msg mt).2.notifications.map Notification.userId =
        db.notifications.map Notification.userId ++ [fl.donorId]) := by
  unfold sendChatMessage
  rw [if_neg (by simp [huid, hmsg]), hU]
  dsimp only
  rw [hL]
  dsimp only
  constructor
  · intro hdon
    rw [if_pos hdon]
    constructor
    · intro hF
      rw [if_pos rfl]
      rw [hF]
      simp
    · intro c hF
      rw [if_pos rfl]
      rw [hF]
      simp only [Option.map_some']
      constructor
      · intro hne
        rw [if_pos hne]
        simp [createNotification]
      · intro heq
        rw [if_neg (by simp [heq])]
  · intro hndon
    rw [if_neg hndon]
    rw [if_neg (by decide)]
    dsimp only
    rw [if_pos hndon]
    simp [createNotification]

/-- C3 counterexample: in the store whose only claim record on listing 1 is
cancelled (no live claim exists), the donor sends a chat message; the claim as
stated requires that no notification be delivered, but the route notifies
`userA`, the holder of the cancelled claim. -/
theorem C3_counterexample :
    ((dbCancelled.claims.all fun c => !(isLive c.status)) = true) ∧
    (sendChatMessage dbCancelled 50 1 "userD" "hello" MessageType.text).2.notifications.map
      Notification.userId = ["userA"] := by
  refine ⟨by decide, by decide⟩

/-- Witness for C3: the notification-target theorem applied to the concrete
store, donor branch, first claim record cancelled and held by `userA`. -/
theorem C3_witness :
    (sendChatMessage dbCancelled 50 1 "userD" "hello" MessageType.text).2.notifications.map
      Notification.userId =
      dbCancelled.notifications.map Notification.userId ++ [cancelledClaimA.claimedBy] :=
  (((C3_chat_notification_target dbCancelled 50 1 "userD" "hello" MessageType.text
    ⟨"userD", .individual, some "Dan", none, none⟩ listing1 (by decide) (by decide) rfl rfl).1
    rfl).2 cancelledClaimA rfl).1 (by decide)

/-- C4: a reserve request on an existing listing whose status is not
`available` fails with the conflict response (HTTP 400, "Food is no longer
available") and leaves the whole store — claims and listing included —
unchanged; when the status is `available` (and the actor resolves), a claim
with kind `reserved` and status `pending` for the pair is appended and the
listing moves to `reserved`. -/
theorem C4_reserve_conflict (db : DB) (now lid : Nat) (uid : String) (ept : Option Nat)
    (notes : Option String) (l : FoodListing) (hL : findListingById db lid = some l) :
    (l.status ≠ ListingStatus.available →
      reserveFood db now lid uid ept notes =
        (.error ⟨400, "Food is no longer available"⟩, db)) ∧
    (l.status = ListingStatus.available → ∀ u, getUserByClerkId db uid = some u →
      (∃ nc, (reserveFood db now lid uid ept notes).2.claims = db.claims ++ [nc] ∧
        nc.claimType = ClaimKind.reserved ∧ nc.status = ClaimStatus.pending ∧
        nc.foodListingId = lid ∧ nc.claimedBy = uid) ∧
      (∃ l', getFoodListingById (reserveFood db now lid uid ept notes).2 lid = some l' ∧
        l'.status = ListingStatus.reserved)) := by
  unfold reserveFood
  rw [hL]
  dsimp only
  constructor
  · intro hs
    rw [if_pos hs]
  · intro hs u hU
    rw [if_neg (by simp [hs]), hU]
    dsimp only
    constructor
    · refine ⟨{ id := db.nextClaimId, foodListingId := lid, claimedBy := uid, claimerName := claimerNameOf u, claimerType := u.userType, claimType := ClaimKind.reserved, estimatedPickupTime := ept, actualPickupTime := none, notes := notes, status := ClaimStatus.pending, createdAt := now, updatedAt := now }, ?_, rfl, rfl, rfl, rfl⟩
      rw [updateFoodStatus_claims]
    · unfold getFoodListingById findListingById
      rw [updateFoodStatus_listings, findListingById_setClaims, hL]
      have hL' : db.listings.find? (fun k => decide (k.id = lid)) = some l := hL
      rw [find?_map_ite FoodListing.id lid (setListingStatus now ListingStatus.reserved) (fun x => rfl) db.listings, hL']
      exact ⟨setListingStatus now ListingStatus.reserved l, rfl, rfl⟩

/-- Witness for C4: reserving the available listing of the concrete store. -/
theorem C4_witness :
    (∃ nc, (reserveFood dbEmptyClaims 10 1 "userA" none none).2.claims =
        dbEmptyClaims.claims ++ [nc] ∧
      nc.claimType = ClaimKind.reserved ∧ nc.status = ClaimStatus.pending ∧
      nc.foodListingId = 1 ∧ nc.claimedBy = "userA") ∧
    (∃ l', getFoodListingById (reserveFood dbEmptyClaims 10 1 "userA" none none).2 1 = some l' ∧
      l'.status = ListingStatus.reserved) :=
  (C4_reserve_conflict dbEmptyClaims 10 1 "userA" none none listing1 rfl).2 rfl
    ⟨"userA", .individual, some "Alice", none, none⟩ rfl

/-- C5: an unclaim request by an actor holding no live (pending or confirmed)
claim on the listing fails with the not-found response and leaves the store —
listing status included — unchanged; when such a live claim exists, the first
one found is set to `cancelled` and the listing status is set to `available`. -/
theorem C5_unclaim (db : DB) (now lid : Nat) (uid : String) :
    ((db.claims.find? fun k =>
        decide (k.foodListingId = lid ∧ k.claimedBy = uid) && isLive k.status) = none →
      unclaimFood db now lid uid = (.error ⟨404, "No active claim found"⟩, db)) ∧
    (∀ c, (db.claims.find? fun k =>
        decide (k.foodListingId = lid ∧ k.claimedBy = uid) && isLive k.status) = some c →
      (unclaimFood db now lid uid).2.claims =
        (db.claims.map fun x => if x.id = c.id then { x with status := ClaimStatus.cancelled } else x) ∧
      (∀ l, findListingById db lid = some l →
        getFoodListingById (unclaimFood db now lid uid).2 lid =
          some (setListingStatus now ListingStatus.available l))) := by
  unfold unclaimFood
  constructor
  · intro hF
    rw [hF]
  · intro c hF
    rw [hF]
    dsimp only
    constructor
    · rw [updateFoodStatus_claims]
    · intro l hL
      unfold getFoodListingById findListingById
      rw [updateFoodStatus_listings, findListingById_setClaims, hL]
      have hL' : db.listings.find? (fun k => decide (k.id = lid)) = some l := hL
      rw [find?_map_ite FoodListing.id lid (setListingStatus now ListingStatus.available) (fun x => rfl) db.listings, hL']
      rfl

/-- Witness for C5: no claim records at all, so unclaim fails with 404 and the
store is untouched. -/
theorem C5_witness :
    unclaimFood dbEmptyClaims 5 1 "userA" =
      (.error ⟨404, "No active claim found"⟩, dbEmptyClaims) :=
  (C5_unclaim dbEmptyClaims 5 1 "userA").1 rfl

/-- C6: a claim request on an existing listing by a resolved actor is rejected
with the conflict response (HTTP 400, "Food has already been claimed") exactly
when the listing status is `claimed`; in particular an `available` listing is
claimed directly — the request succeeds and the listing ends up `claimed` —
without passing through `reserved`. -/
theorem C6_claim_conflict (db : DB) (now lid : Nat) (uid : String) (notes : Option String)
    (l : FoodListing) (u : ResolvedUser)
    (hL : findListingById db lid = some l) (hU : getUserByClerkId db uid = some u) :
    ((claimFood db now lid uid notes).1 =
        .error ⟨400, "Food has already been claimed"⟩ ↔ l.status = ListingStatus.claimed) ∧
    (l.status = ListingStatus.available →
      (∃ c, (claimFood db now lid uid notes).1 = .ok c) ∧
      (∃ l', getFoodListingById (claimFood db now lid uid notes).2 lid = some l' ∧
        l'.status = ListingStatus.claimed)) := by
  by_cases hs : l.status = ListingStatus.claimed
  · have h1 : (claimFood db now lid uid notes).1 =
        .error ⟨400, "Food has already been claimed"⟩ := by
      unfold claimFood
      rw [hL]
      dsimp only
      rw [if_pos hs]
    refine ⟨⟨fun _ => hs, fun _ => h1⟩, fun ha => ?_⟩
    rw [ha] at hs
    exact absurd hs (by decide)
  · have hok : ∃ c0, (claimFood db now lid uid notes).1 = .ok c0 := by
      unfold claimFood
      rw [hL]
      dsimp only
      rw [if_neg hs, hU]
      dsimp only
      cases hF : db.claims.find? (fun c => decide (c.foodListingId = lid ∧ c.claimedBy = uid)) with
      | some c => exact ⟨_, rfl⟩
      | none => exact ⟨_, rfl⟩
    have hlst : ∃ l', getFoodListingById (claimFood db now lid uid notes).2 lid = some l' ∧
        l'.status = ListingStatus.claimed := by
      rcases claimFood_post db now lid uid notes with heq | ⟨cid, _, hmap⟩ | ⟨nc, _, hmap, _, _⟩
      · exfalso
        revert heq
        unfold claimFood
        rw [hL]
        dsimp only
        rw [if_neg hs, hU]
        dsimp only
        cases hF : db.claims.find? (fun c => decide (c.foodListingId = lid ∧ c.claimedBy = uid)) with
        | some c =>
          dsimp only
          intro heq
          have hclaims : ((updateFoodStatus { db with claims := db.claims.map fun x => if x.id = c.id then upgradeClaim now notes x else x } now lid ListingStatus.claimed (some uid)).1).listings = db.listings := congrArg DB.listings heq
          rw [updateFoodStatus_listings, findListingById_setClaims, hL] at hclaims
          have h2 := congrArg (fun ls => ls.find? fun k => decide (k.id = lid)) hclaims
          dsimp only at h2
          rw [find?_map_ite FoodListing.id lid (setListingStatus now ListingStatus.claimed) (fun x => rfl) db.listings] at h2
          have hL' : db.listings.find? (fun k => decide (k.id = lid)) = some l := hL
          rw [hL'] at h2
          have hstat := congrArg (fun o => Option.map FoodListing.status o) h2
          simp [setListingStatus] at hstat
          exact hs hstat.symm
        | none =>
          dsimp only
          intro heq
          have hclaims : ((updateFoodStatus { db with claims := db.claims ++ [{ id := db.nextClaimId, foodListingId := lid, claimedBy := uid, claimerName := claimerNameOf u, claimerType := u.userType, claimType := ClaimKind.claimed, estimatedPickupTime := none, actualPickupTime := some now, notes := notes, status := ClaimStatus.pickedUp, createdAt := now, updatedAt := now }], nextClaimId := db.nextClaimId + 1 } now lid ListingStatus.claimed (some uid)).1).claims = db.claims := congrArg DB.claims heq
          rw [updateFoodStatus_claims] at hclaims
          have h3 := congrArg List.length hclaims
          simp at h3
      · refine ⟨setListingStatus now ListingStatus.claimed l, ?_, rfl⟩
        unfold getFoodListingById findListingById
        have hmap' : (claimFood db now lid uid notes).2.listings.find? (fun k => decide (k.id = lid)) = ((db.listings.map fun x => if x.id = lid then setListingStatus now ListingStatus.claimed x else x).find? fun k => decide (k.id = lid)) := by rw [hmap]
        rw [hmap']
        have hL' : db.listings.find? (fun k => decide (k.id = lid)) = some l := hL
        rw [find?_map_ite FoodListing.id lid (setListingStatus now ListingStatus.claimed) (fun x => rfl) db.listings, hL']
        rfl
      · refine ⟨setListingStatus now ListingStatus.claimed l, ?_, rfl⟩
        unfold getFoodListingById findListingById
        have hmap' : (claimFood db now lid uid notes).2.listings.find? (fun k => decide (k.id = lid)) = ((db.listings.map fun x => if x.id = lid then setListingStatus now ListingStatus.claimed x else x).find? fun k => decide (k.id = lid)) := by rw [hmap]
        rw [hmap']
        have hL' : db.listings.find? (fun k => decide (k.id = lid)) = some l := hL
        rw [find?_map_ite FoodListing.id lid (setListingStatus now ListingStatus.claimed) (fun x => rfl) db.listings, hL']
        rfl
    refine ⟨⟨fun h => ?_, fun h => absurd h hs⟩, fun _ => ⟨hok, hlst⟩⟩
    obtain ⟨c0, hc0⟩ := hok
    rw [hc0] at h
    exact absurd h (by simp)

/-- Witness for C6: claiming the available listing of the concrete store
directly from `available`. -/
theorem C6_witness :
    ((claimFood dbEmptyClaims 100 1 "userA" none).1 =
        .error ⟨400, "Food has already been claimed"⟩ ↔
      listing1.status = ListingStatus.claimed) ∧
    (listing1.status = ListingStatus.available →
      (∃ c, (claimFood dbEmptyClaims 100 1 "userA" none).1 = .ok c) ∧
      (∃ l', getFoodListingById (claimFood dbEmptyClaims 100 1 "userA" none).2 1 = some l' ∧
        l'.status = ListingStatus.claimed)) :=
  C6_claim_conflict dbEmptyClaims 100 1 "userA" none listing1
    ⟨"userA", .individual, some "Alice", none, none⟩ rfl rfl

theorem matchesQuery_isActive (q : ListingQuery) (x : FoodListing)
    (h : matchesQuery q x = true) : x.isActive = true := by
  unfold matchesQuery at h
  simp only [Bool.and_eq_true] at h
  exact h.1.1.1.1.1.1.1

/-- C7: after the owning donor soft-deletes a listing, no discovery query —
for any filter, page size, page number, sort field and sort direction —
returns a listing with its id, while the direct id lookup still returns the
record, now with `isActive = false` and all other fields intact. -/
theorem C7_soft_delete (db : DB) (lid : Nat) (uid : String) (l : FoodListing)
    (hL : findListingById db lid = some l) (hOwn : l.donorId = uid) :
    (∀ q : ListingQuery, ∀ x ∈ getFoodListings (deleteFoodListing db lid uid).2 q, x.id ≠ lid) ∧
    getFoodListingById (deleteFoodListing db lid uid).2 lid = some (deactivateListing l) := by
  have hd : (deleteFoodListing db lid uid).2 =
      { db with listings := db.listings.map fun x => if x.id = lid then deactivateListing x else x } := by
    unfold deleteFoodListing
    rw [hL]
    dsimp only
    rw [if_neg (by simp [hOwn])]
  constructor
  · intro q x hx
    rw [hd] at hx
    unfold getFoodListings at hx
    dsimp only at hx
    have hx1 := List.mem_of_mem_drop (List.mem_of_mem_take hx)
    unfold sortListings at hx1
    have hx2 := (List.mem_insertionSort _).1 hx1
    have hact : x.isActive = true := matchesQuery_isActive q x (List.mem_filter.1 hx2).2
    have hmem := (List.mem_filter.1 hx2).1
    obtain ⟨y, hy, hyx⟩ := List.mem_map.1 hmem
    intro hxid
    by_cases hy2 : y.id = lid
    · rw [if_pos hy2] at hyx
      rw [← hyx] at hact
      simp [deactivateListing] at hact
    · rw [if_neg hy2] at hyx
      rw [← hyx] at hxid
      exact hy2 hxid
  · rw [hd]
    unfold getFoodListingById findListingById
    dsimp only
    have hL' : db.listings.find? (fun k => decide (k.id = lid)) = some l := hL
    rw [find?_map_ite FoodListing.id lid deactivateListing (fun x => rfl) db.listings, hL']
    rfl

/-- Witness for C7: deleting listing 1 as its donor in the concrete store;
instantiated at one concrete query (no filters, first page, newest first). -/
theorem C7_witness :
    (∀ x ∈ getFoodListings (deleteFoodListing dbEmptyClaims 1 "userD").2
        { status := none, foodType := none, location := none, priority := none, search := none, vegetarian := false, vegan := false, limit := 20, page := 1, sortBy := .createdAt, sortDesc := true }, x.id ≠ 1) ∧
    getFoodListingById (deleteFoodListing dbEmptyClaims 1 "userD").2 1 =
      some (deactivateListing listing1) :=
  ⟨(C7_soft_delete dbEmptyClaims 1 "userD" listing1 rfl rfl).1 _,
   (C7_soft_delete dbEmptyClaims 1 "userD" listing1 rfl rfl).2⟩

/-- C8: the mark-all-chat-read route is idempotent — running it twice equals
running it once for every store, listing and actor — and each run rewrites the
message list pointwise: a message becomes read exactly when it already was or
when it belongs to the given listing and was not sent by the requesting actor;
every other field of every message is untouched. -/
theorem C8_mark_read_idempotent (db : DB) (fid : Nat) (uid : String) :
    markChatRead (markChatRead db fid uid) fid uid = markChatRead db fid uid ∧
    List.Forall₂ (fun m m' : ChatMessage =>
      m'.isRead = (m.isRead || (decide (m.foodListingId = fid) && decide (m.senderId ≠ uid))) ∧
      m'.foodListingId = m.foodListingId ∧ m'.senderId = m.senderId ∧
      m'.senderName = m.senderName ∧ m'.senderType = m.senderType ∧
      m'.message = m.message ∧ m'.messageType = m.messageType ∧ m'.createdAt = m.createdAt)
      db.messages (markChatRead db fid uid).messages := by
  constructor
  · unfold markChatRead
    dsimp only
    congr 1
    rw [List.map_map]
    refine List.map_congr_left fun m _ => ?_
    by_cases h : m.foodListingId = fid ∧ m.senderId ≠ uid ∧ m.isRead = false
    · simp [markMessageRead, Function.comp, h]
    · simp [markMessageRead, Function.comp, h]
  · unfold markChatRead
    dsimp only
    rw [List.forall₂_map_right_iff]
    rw [List.forall₂_same]
    intro m _
    by_cases h : m.foodListingId = fid ∧ m.senderId ≠ uid ∧ m.isRead = false
    · obtain ⟨h1, h2, h3⟩ := h
      simp [markMessageRead, h1, h2, h3]
    · have hm : markMessageRead fid uid m = m := by
        unfold markMessageRead
        rw [if_neg h]
      rw [hm]
      refine ⟨?_, rfl, rfl, rfl, rfl, rfl, rfl, rfl⟩
      cases hr : m.isRead
      · have h2 : ¬(m.foodListingId = fid ∧ m.senderId ≠ uid) := fun hpq => h ⟨hpq.1, hpq.2, hr⟩
        by_cases hP : m.foodListingId = fid
        · by_cases hQ : m.senderId ≠ uid
          · exact absurd ⟨hP, hQ⟩ h2
          · simp [hQ]
        · simp [hP]
      · simp

/-- Witness-style instance of C8 on a concrete store (the theorem itself has no
hypothesis; this records a concrete evaluation).  In `dbChat` the single donor
message is unread; after `userA` marks the chat read it is read, and a second
run changes nothing. -/
theorem C8_witness :
    (markChatRead dbChat 1 "userA").messages.map ChatMessage.isRead = [true] ∧
    markChatRead (markChatRead dbChat 1 "userA") 1 "userA" = markChatRead dbChat 1 "userA" :=
  ⟨by decide, (C8_mark_read_idempotent dbChat 1 "userA").1⟩

/-- C9: for every nearby query that returns a result list, the kilometer radius
is converted to the angular radius `radiusKm / 6371` and every returned listing
has stored coordinates for which the engine's spherical-cap test at exactly
that angular radius around the request's center holds; a listing failing the
cap test (or lacking coordinates) is never returned.  The cap test itself is
the database engine's `$centerSphere` geometry, abstracted as the `wc`
parameter. -/
theorem C9_nearby_in_cap (wc : Coordinates → Coordinates → ℚ → Bool) (db : DB)
    (lat lon radiusKm : ℚ) (lim : Nat) (ls : List FoodListing)
    (h : nearbyFood wc db lat lon radiusKm lim = .ok ls) :
    ∀ x ∈ ls, ∃ c, x.coordinates = some c ∧
      wc { latitude := lat, longitude := lon } c (radiusKm / 6371) = true := by
  intro x hx
  unfold nearbyFood at h
  by_cases h0 : lat = 0 ∨ lon = 0
  · rw [if_pos h0] at h
    exact absurd h (by simp)
  · rw [if_neg h0] at h
    dsimp only at h
    have hls : ls = (sortListings .createdAt true (db.listings.filter fun l =>
        l.isActive && decide (l.status = .available) &&
        (match l.coordinates with
         | some c => wc { latitude := lat, longitude := lon } c (radiusKm / 6371)
         | none => false))).take lim := by
      cases h
      rfl
    rw [hls] at hx
    unfold sortListings at hx
    have hx1 := (List.mem_insertionSort _).1 (List.mem_of_mem_take hx)
    have hp := (List.mem_filter.1 hx1).2
    simp only [Bool.and_eq_true] at hp
    obtain ⟨-, hcap⟩ := hp
    cases hc : x.coordinates with
    | none =>
      rw [hc] at hcap
      simp at hcap
    | some c =>
      rw [hc] at hcap
      exact ⟨c, rfl, hcap⟩

/-- Witness for C9: a concrete query (center (1,1), radius 10 km, limit 20)
over the store holding one listing with coordinates, under the all-accepting
cap predicate. -/
theorem C9_witness :
    ∃ c, listingGeo.coordinates = some c ∧
      capAll { latitude := 1, longitude := 1 } c ((10 : ℚ) / 6371) = true :=
  C9_nearby_in_cap capAll dbGeo 1 1 10 20 [listingGeo] rfl listingGeo (by simp)

/-- C10: when the owning donor updates a listing, every payload field other
than the actor id is written back exactly as supplied — status and isActive
included, so the update can place the listing in any status outside the
reserve/claim/unclaim machine — while absent fields keep their stored values;
`updatedAt` is always restamped, and the id never changes. -/
theorem C10_update_frame (db : DB) (now lid : Nat) (uid : String) (u : ListingUpdate)
    (l : FoodListing) (hL : findListingById db lid = some l) (hOwn : l.donorId = uid) :
    (updateFoodListing db now lid uid u).1 = .ok (applyListingUpdate u now l) ∧
    ∃ l', getFoodListingById (updateFoodListing db now lid uid u).2 lid = some l' ∧
      l'.title = u.title.getD l.title ∧
      l'.description = u.description.getD l.description ∧
      l'.location = u.location.getD l.location ∧
      l'.coordinates = (u.coordinates.map some).getD l.coordinates ∧
      l'.donor = u.donor.getD l.donor ∧
      l'.donorId = u.donorId.getD l.donorId ∧
      l'.donorType = u.donorType.getD l.donorType ∧
      l'.quantity = u.quantity.getD l.quantity ∧
      l'.expiryTime = u.expiryTime.getD l.expiryTime ∧
      l'.exactExpiryDate = (u.exactExpiryDate.map some).getD l.exactExpiryDate ∧
      l'.foodType = u.foodType.getD l.foodType ∧
      l'.dietaryInfo = u.dietaryInfo.getD l.dietaryInfo ∧
      l'.status = u.status.getD l.status ∧
      l'.images = u.images.getD l.images ∧
      l'.contactInfo = u.contactInfo.getD l.contactInfo ∧
      l'.pickupInstructions = (u.pickupInstructions.map some).getD l.pickupInstructions ∧
      l'.servings = (u.servings.map some).getD l.servings ∧
      l'.tags = u.tags.getD l.tags ∧
      l'.priority = u.priority.getD l.priority ∧
      l'.isActive = u.isActive.getD l.isActive ∧
      l'.createdAt = u.createdAt.getD l.createdAt ∧
      l'.updatedAt = now ∧ l'.id = l.id := by
  unfold updateFoodListing
  rw [hL]
  dsimp only
  rw [if_neg (by simp [hOwn])]
  refine ⟨rfl, applyListingUpdate u now l, ?_, rfl, rfl, rfl, rfl, rfl, rfl, rfl, rfl, rfl, rfl, rfl, rfl, rfl, rfl, rfl, rfl, rfl, rfl, rfl, rfl, rfl, rfl, rfl⟩
  unfold getFoodListingById findListingById
  dsimp only
  have hL' : db.listings.find? (fun k => decide (k.id = lid)) = some l := hL
  rw [find?_map_ite FoodListing.id lid (applyListingUpdate u now) (fun x => rfl) db.listings, hL']
  rfl

/-- Witness for C10: the donor rewrites the status of the available listing 1
straight to `claimed` through the update route. -/
theorem C10_witness :
    (updateFoodListing dbEmptyClaims 40 1 "userD" claimedUpdate).1 =
      .ok (applyListingUpdate claimedUpdate 40 listing1) ∧
    ∃ l', getFoodListingById (updateFoodListing dbEmptyClaims 40 1 "userD" claimedUpdate).2 1 =
        some l' ∧
      l'.title = claimedUpdate.title.getD listing1.title ∧
      l'.description = claimedUpdate.description.getD listing1.description ∧
      l'.location = claimedUpdate.location.getD listing1.location ∧
      l'.coordinates = (claimedUpdate.coordinates.map some).getD listing1.coordinates ∧
      l'.donor = claimedUpdate.donor.getD listing1.donor ∧
      l'.donorId = claimedUpdate.donorId.getD listing1.donorId ∧
      l'.donorType = claimedUpdate.donorType.getD listing1.donorType ∧
      l'.quantity = claimedUpdate.quantity.getD listing1.quantity ∧
      l'.expiryTime = claimedUpdate.expiryTime.getD listing1.expiryTime ∧
      l'.exactExpiryDate = (claimedUpdate.exactExpiryDate.map some).getD listing1.exactExpiryDate ∧
      l'.foodType = claimedUpdate.foodType.getD listing1.foodType ∧
      l'.dietaryInfo = claimedUpdate.dietaryInfo.getD listing1.dietaryInfo ∧
      l'.status = claimedUpdate.status.getD listing1.status ∧
      l'.images = claimedUpdate.images.getD listing1.images ∧
      l'.contactInfo = claimedUpdate.contactInfo.getD listing1.contactInfo ∧
      l'.pickupInstructions = (claimedUpdate.pickupInstructions.map some).getD listing1.pickupInstructions ∧
      l'.servings = (claimedUpdate.servings.map some).getD listing1.servings ∧
      l'.tags = claimedUpdate.tags.getD listing1.tags ∧
      l'.priority = claimedUpdate.priority.getD listing1.priority ∧
      l'.isActive = claimedUpdate.isActive.getD listing1.isActive ∧
      l'.createdAt = claimedUpdate.createdAt.getD listing1.createdAt ∧
      l'.updatedAt = 40 ∧ l'.id = listing1.id :=
  C10_update_frame dbEmptyClaims 40 1 "userD" claimedUpdate listing1 rfl rfl
